import Mathlib

/-!
Shallow embedding of the wallet_service repository (FastAPI + SQLAlchemy).

Monetary amounts (`Decimal` with two decimal places in the source) are
modelled as exact rationals (`Rat`).  Database rows are Lean structures,
the SQLAlchemy session is a pair of database snapshots (`committed`,
`working`); every repository method that calls `db.commit()` in the source
commits here, and `db.rollback()` restores the committed snapshot.
Times (`datetime`) are modelled as integer epoch seconds.
-/

namespace App

/-- An HTTPException: status code and detail string. -/
structure HErr where
  code : Nat
  detail : String
deriving DecidableEq, Repr

/-- app/models/transaction.py: TransactionType. -/
inductive TransactionType
  | DEPOSIT
  | TRANSFER
deriving DecidableEq, Repr

/-- app/models/transaction.py: TransactionStatus. -/
inductive TransactionStatus
  | PENDING
  | SUCCESS
  | FAILED
deriving DecidableEq, Repr

/-- app/models/wallet.py: Wallet row. -/
structure Wallet where
  id : Nat
  wallet_number : String
  balance : Rat
  user_id : Nat
deriving DecidableEq, Repr

/-- app/models/transaction.py: Transaction row. -/
structure Transaction where
  id : Nat
  reference : String
  type : TransactionType
  status : TransactionStatus
  amount : Rat
  wallet_id : Nat
  recipient_wallet_number : Option String
  paystack_reference : Option String
deriving DecidableEq, Repr

/-- app/models/user.py: User row (fields used by the claims). -/
structure UserRec where
  id : Nat
  google_id : String
  email : String
  name : Option String
  picture : Option String
  is_active : Bool
deriving DecidableEq, Repr

/-- app/models/api_key.py: APIKey row.  `expires_at` / `last_used_at` are
epoch seconds. -/
structure APIKey where
  id : Nat
  key : String
  name : String
  user_id : Nat
  is_active : Bool
  permissions : List String
  expires_at : Int
  last_used_at : Option Int
deriving DecidableEq, Repr

/-- The database: one table per model plus id counters. -/
structure DB where
  users : List UserRec
  wallets : List Wallet
  transactions : List Transaction
  api_keys : List APIKey
  next_user_id : Nat
  next_wallet_id : Nat
  next_txn_id : Nat
deriving DecidableEq, Repr

/-- A SQLAlchemy session: the durable committed snapshot and the working
snapshot the ORM objects live in. -/
structure Session where
  committed : DB
  working : DB
deriving DecidableEq, Repr

/-- Open a session on a database. -/
def Session.fromDB (db : DB) : Session := ⟨db, db⟩

/-- db.commit(): the working state becomes durable. -/
def Session.commit (s : Session) : Session := ⟨s.working, s.working⟩

/-- db.rollback(): the working state is reset to the committed one. -/
def Session.rollback (s : Session) : Session := ⟨s.committed, s.committed⟩

/-- UserRepository.get_by_id (the JWT subject is an arbitrary Python int,
hence the `Int` argument). -/
def DB.getUserById (db : DB) (uid : Int) : Option UserRec :=
  db.users.find? (fun u => ((u.id : Int) == uid))

/-- UserRepository.get_by_google_id. -/
def DB.getUserByGoogleId (db : DB) (gid : String) : Option UserRec :=
  db.users.find? (fun u => u.google_id == gid)

/-- WalletRepository.get_by_user_id. -/
def DB.getWalletByUserId (db : DB) (uid : Nat) : Option Wallet :=
  db.wallets.find? (fun w => w.user_id == uid)

/-- WalletRepository.get_by_wallet_number. -/
def DB.getWalletByNumber (db : DB) (num : String) : Option Wallet :=
  db.wallets.find? (fun w => w.wallet_number == num)

/-- Resolution of the `Transaction.wallet` ORM relationship. -/
def DB.getWalletById (db : DB) (wid : Nat) : Option Wallet :=
  db.wallets.find? (fun w => w.id == wid)

/-- TransactionRepository.get_by_paystack_reference. -/
def DB.getTxnByPaystackRef (db : DB) (r : String) : Option Transaction :=
  db.transactions.find? (fun t => t.paystack_reference == some r)

/-- TransactionRepository.get_by_reference. -/
def DB.getTxnByReference (db : DB) (r : String) : Option Transaction :=
  db.transactions.find? (fun t => t.reference == r)

/-- APIKeyRepository.get_by_key. -/
def DB.getApiKeyByKey (db : DB) (k : String) : Option APIKey :=
  db.api_keys.find? (fun a => a.key == k)

/-- In-place mutation of the wallet row with the given id. -/
def DB.updWallet (db : DB) (wid : Nat) (f : Wallet → Wallet) : DB :=
  { db with wallets := db.wallets.map (fun w => if w.id == wid then f w else w) }

/-- In-place mutation of the transaction row with the given id. -/
def DB.updTxn (db : DB) (tid : Nat) (f : Transaction → Transaction) : DB :=
  { db with transactions := db.transactions.map (fun t => if t.id == tid then f t else t) }

/-- In-place mutation of the api key row with the given id. -/
def DB.updApiKey (db : DB) (kid : Nat) (f : APIKey → APIKey) : DB :=
  { db with api_keys := db.api_keys.map (fun a => if a.id == kid then f a else a) }

/-- WalletRepository.add_to_balance: `wallet.balance += amount; db.commit()`. -/
def Session.add_to_balance (s : Session) (wid : Nat) (amount : Rat) : Session :=
  Session.commit ⟨s.committed, s.working.updWallet wid (fun w => { w with balance := w.balance + amount })⟩

/-- WalletRepository.deduct_from_balance: `wallet.balance -= amount; db.commit()`. -/
def Session.deduct_from_balance (s : Session) (wid : Nat) (amount : Rat) : Session :=
  Session.commit ⟨s.committed, s.working.updWallet wid (fun w => { w with balance := w.balance - amount })⟩

/-- TransactionRepository.update_status: sets the status and commits. -/
def Session.update_status (s : Session) (tid : Nat) (st : TransactionStatus) : Session :=
  Session.commit ⟨s.committed, s.working.updTxn tid (fun t => { t with status := st })⟩

/-- APIKeyRepository.update_last_used: stamps the timestamp and commits. -/
def Session.update_last_used (s : Session) (kid : Nat) (timestamp : Int) : Session :=
  Session.commit ⟨s.committed, s.working.updApiKey kid (fun a => { a with last_used_at := some timestamp })⟩

/-- TransactionRepository.create: inserts a row and commits; returns the row. -/
def Session.txn_create (s : Session) (reference : String) (ty : TransactionType)
    (amount : Rat) (wallet_id : Nat) (st : TransactionStatus)
    (recipient_wallet_number : Option String) (paystack_reference : Option String) :
    Session × Transaction :=
  let t : Transaction :=
    { id := s.working.next_txn_id, reference := reference, type := ty, status := st,
      amount := amount, wallet_id := wallet_id,
      recipient_wallet_number := recipient_wallet_number,
      paystack_reference := paystack_reference }
  (Session.commit ⟨s.committed,
      { s.working with
        transactions := s.working.transactions ++ [t]
        next_txn_id := s.working.next_txn_id + 1 }⟩, t)

/-- UserRepository.create: inserts a user row and commits. -/
def Session.user_create (s : Session) (google_id email : String)
    (name picture : Option String) : Session × UserRec :=
  let u : UserRec :=
    { id := s.working.next_user_id, google_id := google_id, email := email,
      name := name, picture := picture, is_active := true }
  (Session.commit ⟨s.committed,
      { s.working with
        users := s.working.users ++ [u]
        next_user_id := s.working.next_user_id + 1 }⟩, u)

/-- WalletRepository.create.  `wallet_number` carries a database-level
unique index (app/models/wallet.py `unique=True`); a duplicate insert makes
`db.commit()` raise (modelled as a 500 error after rollback) instead of
storing the row. -/
def Session.wallet_create (s : Session) (user_id : Nat) (wallet_number : String) :
    Session × Except HErr Wallet :=
  if s.working.wallets.any (fun w => w.wallet_number == wallet_number) then
    (s.rollback, .error ⟨500, "IntegrityError: duplicate wallet_number"⟩)
  else
    let w : Wallet :=
      { id := s.working.next_wallet_id, wallet_number := wallet_number,
        balance := 0, user_id := user_id }
    (Session.commit ⟨s.committed,
        { s.working with
          wallets := s.working.wallets ++ [w]
          next_wallet_id := s.working.next_wallet_id + 1 }⟩, .ok w)

/-- The fields of a Paystack webhook payload that the service reads
(`webhook_data.get(...)` / `data.get(...)`). -/
structure WebhookData where
  event : Option String
  reference : Option String
  amount : Option Int
  paystack_status : Option String
deriving DecidableEq, Repr

/-- app/services/webhook_service.py: WebhookService.process_payment_webhook.
Returns the session after the call together with the outcome (`HTTPException`
as `.error`).  Python truthiness of `reference` / `amount_kobo` rejects the
empty string and zero. -/
def WebhookService.process_payment_webhook (s : Session) (wd : WebhookData) :
    Session × Except HErr Unit :=
  if wd.event == some "charge.success" then
    match wd.reference, wd.amount with
    | some reference, some amount_kobo =>
      if reference == "" || amount_kobo == 0 then
        (s, .error ⟨400, "Invalid webhook data"⟩)
      else
        let amount : Rat := (amount_kobo : Rat) / 100
        match s.working.getTxnByPaystackRef reference with
        | none => (s, .ok ())
        | some txn =>
          if txn.status == TransactionStatus.SUCCESS then
            (s, .ok ())
          else
            if wd.paystack_status == some "success" then
              let s1 := s.update_status txn.id TransactionStatus.SUCCESS
              match s1.working.getWalletById txn.wallet_id with
              | none => (s1.rollback, .error ⟨500, "Webhook processing failed"⟩)
              | some txnWallet =>
                match s1.working.getWalletByUserId txnWallet.user_id with
                | some wallet => ((s1.add_to_balance wallet.id amount).commit, .ok ())
                | none => (s1.commit, .ok ())
            else
              ((s.update_status txn.id TransactionStatus.FAILED).commit, .ok ())
    | _, _ => (s, .error ⟨400, "Invalid webhook data"⟩)
  else
    (s, .ok ())

/-- N sequential deliveries of the same webhook payload. -/
def processN : Nat → Session → WebhookData → Session × Except HErr Unit
  | 0, s, _ => (s, .ok ())
  | n + 1, s, wd =>
    match WebhookService.process_payment_webhook s wd with
    | (s1, .ok _) => processN n s1 wd
    | (s1, .error e) => (s1, .error e)

/-- app/services/wallet_service.py: WalletService.transfer_funds.
`tok` is the outcome of `secrets.token_hex(8).upper()`.  `failAt = some i`
injects a raised exception at the i-th repository call of the try block
(0 = deduct, 1 = add, 2 = sender-leg insert, 3 = recipient-leg insert);
the except handler then runs `db.rollback()` and raises a 500.  `failAt =
none` is the failure-free execution. -/
def WalletService.transfer_funds (s : Session) (sender : Wallet)
    (recipient_wallet_number : String) (amount : Rat) (tok : String)
    (failAt : Option Nat) : Session × Except HErr Transaction :=
  if amount ≤ 0 then
    (s, .error ⟨400, "Amount must be greater than zero"⟩)
  else if sender.balance < amount then
    (s, .error ⟨400, "Insufficient balance"⟩)
  else
    match s.working.getWalletByNumber recipient_wallet_number with
    | none => (s, .error ⟨404, "Recipient wallet not found"⟩)
    | some recipient =>
      if sender.id == recipient.id then
        (s, .error ⟨400, "Cannot transfer to your own wallet"⟩)
      else
        let reference := "TRF_" ++ tok
        if failAt == some 0 then (s.rollback, .error ⟨500, "Transfer failed"⟩) else
        let s1 := s.deduct_from_balance sender.id amount
        if failAt == some 1 then (s1.rollback, .error ⟨500, "Transfer failed"⟩) else
        let s2 := s1.add_to_balance recipient.id amount
        if failAt == some 2 then (s2.rollback, .error ⟨500, "Transfer failed"⟩) else
        let p3 := s2.txn_create reference TransactionType.TRANSFER amount sender.id
          TransactionStatus.SUCCESS (some recipient_wallet_number) none
        if failAt == some 3 then (p3.1.rollback, .error ⟨500, "Transfer failed"⟩) else
        let p4 := p3.1.txn_create (reference ++ "_IN") TransactionType.TRANSFER amount
          recipient.id TransactionStatus.SUCCESS (some sender.wallet_number) none
        (p4.1, .ok p3.2)

/-- app/services/wallet_service.py: WalletService.initialize_deposit.
`tok` models `secrets.token_hex(8).upper()`; `paystackResult` models the
outcome of the outbound `PaystackService.initialize_transaction` call
(`.ok (authorization_url, access_code)`, or the HTTPException it raises).
The pending transaction is created — and committed — before that call. -/
def WalletService.initialize_deposit (s : Session) (user_id : Nat)
    (amount : Rat) (tok : String) (paystackResult : Except HErr (String × String)) :
    Session × Except HErr (String × String × String) :=
  match s.working.getWalletByUserId user_id with
  | none => (s, .error ⟨404, "Wallet not found"⟩)
  | some wallet =>
    let reference := "DEP_" ++ tok
    let p := s.txn_create reference TransactionType.DEPOSIT amount wallet.id
      TransactionStatus.PENDING none (some reference)
    match paystackResult with
    | .error e => (p.1, .error e)
    | .ok pd => (p.1, .ok (reference, pd.1, pd.2))

/-- Characters stripped by Python `int(str)` before parsing. -/
def pySpaceChars : List Char := [' ', '\t', '\n', '\x0d', '\x0b', '\x0c']

/-- Whether Python `int(str)` strips this character. -/
def isPySpace (c : Char) : Bool := pySpaceChars.contains c

/-- Tail of a Python decimal digit-part: digits, optionally separated by
single underscores (an underscore must be followed by a digit). -/
def pyDigitsTail : List Char → Bool
  | [] => true
  | c :: cs =>
    if c == '_' then
      match cs with
      | [] => false
      | c2 :: cs2 => c2.isDigit && pyDigitsTail cs2
    else
      c.isDigit && pyDigitsTail cs

/-- A Python decimal digit-part: one digit, then `pyDigitsTail`. -/
def pyDigitsOk : List Char → Bool
  | [] => false
  | c :: cs => c.isDigit && pyDigitsTail cs

/-- Numeric value of a digit string, ignoring underscore separators. -/
def digitsToNat (cs : List Char) : Nat :=
  cs.foldl (fun acc c => if c == '_' then acc else acc * 10 + (c.toNat - '0'.toNat)) 0

/-- Python `int(s)` on a string (ASCII): optional surrounding whitespace,
optional sign, then a digit-part with optional underscore grouping;
`none` models the `ValueError`. -/
def pyInt (s : String) : Option Int :=
  match (((s.data.dropWhile isPySpace).reverse.dropWhile isPySpace)).reverse with
  | [] => none
  | c :: rest =>
    if c == '+' then
      if pyDigitsOk rest then some ((digitsToNat rest : Nat) : Int) else none
    else if c == '-' then
      if pyDigitsOk rest then some (-((digitsToNat rest : Nat) : Int)) else none
    else
      if pyDigitsOk (c :: rest) then some ((digitsToNat (c :: rest) : Nat) : Int) else none

/-- app/utils/expiry_parser.py: parse_expiry.  `now` is epoch seconds and the
result is the absolute expiry in epoch seconds (`timedelta` flattened to
seconds: H = 3600, D = 86400, M = 30 days, Y = 365 days). -/
def parse_expiry (now : Int) (expiry_str : String) : Except HErr Int :=
  let cs := expiry_str.data
  if cs.length < 2 then
    .error ⟨400, "Invalid expiry format. Use: 1H, 1D, 1M, or 1Y"⟩
  else
    match pyInt (String.mk cs.dropLast) with
    | none => .error ⟨400, "Invalid expiry format. Use: 1H, 1D, 1M, or 1Y"⟩
    | some number =>
      let unit := cs.getLast?.map Char.toUpper
      if unit == some 'H' then .ok (now + number * 3600)
      else if unit == some 'D' then .ok (now + number * 86400)
      else if unit == some 'M' then .ok (now + number * 30 * 86400)
      else if unit == some 'Y' then .ok (now + number * 365 * 86400)
      else .error ⟨400, "Invalid expiry unit. Use: H (hour), D (day), M (month), or Y (year)"⟩

/-- The duration grammar exactly as the claim states it (spec words, for
comparison with `parse_expiry`): `^[0-9]+[HDMY]$`, unit case-insensitive. -/
def matchesDurationGrammar (s : String) : Bool :=
  let cs := s.data
  !cs.dropLast.isEmpty && cs.dropLast.all Char.isDigit &&
    (match cs.getLast? with
     | some c => c.toUpper == 'H' || c.toUpper == 'D' || c.toUpper == 'M' || c.toUpper == 'Y'
     | none => false)

/-- Seconds per duration unit, as the claim states them (spec words). -/
def specUnitSeconds (u : Char) : Int :=
  if u.toUpper == 'H' then 3600
  else if u.toUpper == 'D' then 86400
  else if u.toUpper == 'M' then 30 * 86400
  else 365 * 86400

/-- app/models/api_key.py: APIKey.is_expired — `now > expires_at`. -/
def APIKey.is_expired (a : APIKey) (now : Int) : Bool :=
  now > a.expires_at

/-- app/models/api_key.py: APIKey.is_valid — active and not expired. -/
def APIKey.is_valid (a : APIKey) (now : Int) : Bool :=
  a.is_active && !(a.is_expired now)

/-- Python truthiness of an optional string header. -/
def strTruthy : Option String → Bool
  | none => false
  | some s => !(s == "")

/-- app/api/dependencies.py: get_api_key_auth. -/
def get_api_key_auth (s : Session) (now : Int) (x_api_key : Option String) :
    Session × Except HErr APIKey :=
  if !(strTruthy x_api_key) then
    (s, .error ⟨401, "API key required"⟩)
  else
    match x_api_key with
    | none => (s, .error ⟨401, "API key required"⟩)
    | some k =>
      match s.working.getApiKeyByKey k with
      | none => (s, .error ⟨401, "Invalid API key"⟩)
      | some api_key =>
        if !(api_key.is_valid now) then
          (s, .error ⟨401,
            if api_key.is_expired now then "API key has expired" else "API key is inactive"⟩)
        else
          (s.update_last_used api_key.id now,
           .ok { api_key with last_used_at := some now })

/-- Decoded JWT payload (the `sub` claim is all the code reads). -/
structure JwtPayload where
  sub : Option String
deriving DecidableEq, Repr

/-- app/api/dependencies.py: get_current_user_from_jwt.  `decode` models
`decode_access_token` (jose JWT verification, an external collaborator):
`none` is a verification failure. -/
def get_current_user_from_jwt (decode : String → Option JwtPayload)
    (s : Session) (credentials : Option String) : Session × Except HErr UserRec :=
  match credentials with
  | none => (s, .error ⟨401, "Authentication required"⟩)
  | some token =>
    match decode token with
    | none => (s, .error ⟨401, "Could not validate credentials"⟩)
    | some payload =>
      match payload.sub with
      | none => (s, .error ⟨401, "Could not validate credentials"⟩)
      | some user_id_str =>
        match pyInt user_id_str with
        | none => (s, .error ⟨401, "Could not validate credentials"⟩)
        | some user_id =>
          match s.working.getUserById user_id with
          | none => (s, .error ⟨401, "User not found"⟩)
          | some user =>
            if user.is_active then (s, .ok user)
            else (s, .error ⟨403, "Inactive user"⟩)

/-- The PRIORITY 2 fallback of get_current_user_or_api_key: try the JWT,
and map any failure to the final 401. -/
def jwt_fallback (decode : String → Option JwtPayload)
    (s : Session) (credentials : Option String) :
    Session × Except HErr (Option UserRec × Option APIKey) :=
  match credentials with
  | some _ =>
    match get_current_user_from_jwt decode s credentials with
    | (s2, .ok u) => (s2, .ok (some u, none))
    | (s2, .error _) =>
      (s2, .error ⟨401, "Valid authentication required (JWT token or API key)"⟩)
  | none =>
    (s, .error ⟨401, "Valid authentication required (JWT token or API key)"⟩)

/-- app/api/dependencies.py: get_current_user_or_api_key — API key first,
JWT second, else 401. -/
def get_current_user_or_api_key (decode : String → Option JwtPayload)
    (s : Session) (now : Int) (x_api_key : Option String)
    (credentials : Option String) :
    Session × Except HErr (Option UserRec × Option APIKey) :=
  if strTruthy x_api_key then
    match get_api_key_auth s now x_api_key with
    | (s1, .ok ak) => (s1, .ok (none, some ak))
    | (s1, .error _) => jwt_fallback decode s1 credentials
  else
    jwt_fallback decode s credentials

/-- app/services/paystack_service.py: PaystackService.verify_webhook_signature.
`hmacHex secret body` models `hmac.new(secret, body, sha512).hexdigest()`
(the HMAC itself is an uninterpreted function); `hmac.compare_digest` is a
(constant-time) string equality. -/
def verify_webhook_signature (hmacHex : String → List Nat → String)
    (secret : String) (payload : List Nat) (signature : String) : Bool :=
  hmacHex secret payload == signature

/-- app/api/v1/routes/webhook.py: the paystack_webhook route.  `body` is the
raw request bytes; `parseJson` models `request.json()` (`none` = malformed
body, which raises before the service is ever constructed). -/
def paystack_webhook (hmacHex : String → List Nat → String)
    (parseJson : List Nat → Option WebhookData) (secret : String)
    (s : Session) (body : List Nat) (x_paystack_signature : String) :
    Session × Except HErr Bool :=
  if !(verify_webhook_signature hmacHex secret body x_paystack_signature) then
    (s, .error ⟨401, "Invalid webhook signature"⟩)
  else
    match parseJson body with
    | none => (s, .error ⟨400, "Malformed JSON body"⟩)
    | some wd =>
      match WebhookService.process_payment_webhook s wd with
      | (s1, .ok _) => (s1, .ok true)
      | (s1, .error e) => (s1, .error e)

/-- string.digits. -/
def digitChars : List Char := ['0', '1', '2', '3', '4', '5', '6', '7', '8', '9']

/-- app/utils/security.py: generate_wallet_number.  `choice` models the 13
draws of `secrets.choice(string.digits)`. -/
def generate_wallet_number (choice : Nat → Fin 10) : String :=
  String.mk ((List.range 13).map (fun i => digitChars.getD (choice i) '0'))

/-- app/services/auth_service.py: AuthService.get_or_create_user.  A new
user gets a wallet numbered by one draw of `generate_wallet_number` — the
code performs no collision check and no retry. -/
def AuthService.get_or_create_user (s : Session) (choice : Nat → Fin 10)
    (google_id email : String) (name picture : Option String) :
    Session × Except HErr UserRec :=
  match s.working.getUserByGoogleId google_id with
  | some user => (s, .ok user)
  | none =>
    let p := s.user_create google_id email name picture
    let wallet_number := generate_wallet_number choice
    match p.1.wallet_create p.2.id wallet_number with
    | (s2, .ok _) => (s2, .ok p.2)
    | (s2, .error e) => (s2, .error e)

/-! ### Helper lemmas -/

deriving instance DecidableEq for Except

/-- Running `find?` after a pointwise update that preserves the predicate
finds the updated image of the original hit. -/
theorem find?_map_pres {α : Type} {p : α → Bool} {g : α → α}
    (hg : ∀ x, p (g x) = p x) {l : List α} {a : α}
    (h : l.find? p = some a) : (l.map g).find? p = some (g a) := by
  rw [List.find?_map]
  have hpg : (p ∘ g) = p := funext hg
  rw [hpg, h, Option.map_some']

/-- Running `find?` after a pointwise predicate-preserving update misses
when the original missed. -/
theorem find?_map_pres_none {α : Type} {p : α → Bool} {g : α → α}
    (hg : ∀ x, p (g x) = p x) {l : List α}
    (h : l.find? p = none) : (l.map g).find? p = none := by
  rw [List.find?_map]
  have hpg : (p ∘ g) = p := funext hg
  rw [hpg, h, Option.map_none']

/-! ### Claim theorems -/

/-- Claim C10: deposit initialization is not atomic with the outbound
payment call — when the Paystack call fails after the Pending Deposit row
was created, the error propagates but the Pending row stays committed. -/
theorem C10_deposit_row_survives_paystack_failure (s : Session) (user_id : Nat)
    (amount : Rat) (tok : String) (e : HErr) (wallet : Wallet)
    (hw : s.working.getWalletByUserId user_id = some wallet) :
    (WalletService.initialize_deposit s user_id amount tok (.error e)).2 = .error e ∧
    (WalletService.initialize_deposit s user_id amount tok (.error e)).1.committed.transactions
      = s.working.transactions ++
        [{ id := s.working.next_txn_id, reference := "DEP_" ++ tok,
           type := TransactionType.DEPOSIT, status := TransactionStatus.PENDING,
           amount := amount, wallet_id := wallet.id,
           recipient_wallet_number := none, paystack_reference := some ("DEP_" ++ tok) }] := by
  unfold WalletService.initialize_deposit
  rw [hw]
  exact ⟨rfl, rfl⟩

/-- Example state for the C10 witness: one wallet, empty transaction log. -/
def exDB10 : DB := ⟨[], [⟨1, "1234567890123", 25, 7⟩], [], [], 1, 2, 1⟩

/-- Witness for C10 at a concrete state and a concrete 503 failure. -/
theorem C10_witness :
    (Session.fromDB exDB10).working.getWalletByUserId 7 = some ⟨1, "1234567890123", 25, 7⟩ ∧
    ((WalletService.initialize_deposit (Session.fromDB exDB10) 7 50 "AB"
        (.error ⟨503, "Paystack service unavailable"⟩)).2
      = .error ⟨503, "Paystack service unavailable"⟩ ∧
     (WalletService.initialize_deposit (Session.fromDB exDB10) 7 50 "AB"
        (.error ⟨503, "Paystack service unavailable"⟩)).1.committed.transactions
      = (Session.fromDB exDB10).working.transactions ++
        [{ id := 1, reference := "DEP_" ++ "AB",
           type := TransactionType.DEPOSIT, status := TransactionStatus.PENDING,
           amount := 50, wallet_id := 1,
           recipient_wallet_number := none, paystack_reference := some ("DEP_" ++ "AB") }]) :=
  ⟨by decide, C10_deposit_row_survives_paystack_failure (Session.fromDB exDB10) 7 50 "AB"
    ⟨503, "Paystack service unavailable"⟩ ⟨1, "1234567890123", 25, 7⟩ (by decide)⟩

/-- Claim C8: on an HMAC mismatch the webhook route fails 401 before the
body is parsed, with the database untouched — for every body, signature,
parser and state. -/
theorem C8_signature_gate (hmacHex : String → List Nat → String)
    (parseJson : List Nat → Option WebhookData) (secret : String)
    (s : Session) (body : List Nat) (sig : String)
    (h : hmacHex secret body ≠ sig) :
    paystack_webhook hmacHex parseJson secret s body sig
      = (s, .error ⟨401, "Invalid webhook signature"⟩) := by
  unfold paystack_webhook verify_webhook_signature
  simp [h]

/-- Witness for C8 with a concrete mismatching signature. -/
theorem C8_witness :
    (fun (_ : String) (_ : List Nat) => "aa") "sec" [1, 2] ≠ "bb" ∧
    paystack_webhook (fun _ _ => "aa") (fun _ => none) "sec"
        (Session.fromDB ⟨[], [], [], [], 1, 1, 1⟩) [1, 2] "bb"
      = (Session.fromDB ⟨[], [], [], [], 1, 1, 1⟩, .error ⟨401, "Invalid webhook signature"⟩) :=
  ⟨by decide, C8_signature_gate (fun _ _ => "aa") (fun _ => none) "sec"
    (Session.fromDB ⟨[], [], [], [], 1, 1, 1⟩) [1, 2] "bb" (by decide)⟩

/-- Sender and recipient wallets for the C4 failing input. -/
def exDB4 : DB := ⟨[], [⟨1, "1111111111111", 1000, 7⟩, ⟨2, "2222222222222", 50, 8⟩], [], [], 1, 3, 1⟩

/-- Claim C4 (code bug): a failure while inserting the recipient-leg row —
after the per-call commits of the debit, the credit and the sender-leg
insert — leaves all three earlier mutations durable; `db.rollback()` in the
except handler cannot discard them, so state is NOT as before. -/
theorem C4_partial_commit_on_midway_failure :
    (WalletService.transfer_funds (Session.fromDB exDB4)
        ⟨1, "1111111111111", 1000, 7⟩ "2222222222222" 100 "TOK" (some 3)).2
      = .error ⟨500, "Transfer failed"⟩ ∧
    ((WalletService.transfer_funds (Session.fromDB exDB4)
        ⟨1, "1111111111111", 1000, 7⟩ "2222222222222" 100 "TOK" (some 3)).1.committed.getWalletById 1).map
        Wallet.balance = some 900 ∧
    ((WalletService.transfer_funds (Session.fromDB exDB4)
        ⟨1, "1111111111111", 1000, 7⟩ "2222222222222" 100 "TOK" (some 3)).1.committed.getWalletById 2).map
        Wallet.balance = some 150 ∧
    (WalletService.transfer_funds (Session.fromDB exDB4)
        ⟨1, "1111111111111", 1000, 7⟩ "2222222222222" 100 "TOK" (some 3)).1.committed.transactions.length = 1 ∧
    (WalletService.transfer_funds (Session.fromDB exDB4)
        ⟨1, "1111111111111", 1000, 7⟩ "2222222222222" 100 "TOK" (some 3)).1.committed ≠ exDB4 := by
  refine ⟨rfl, ?_, ?_, rfl, ?_⟩
  · show some ((1000 : Rat) - 100) = some 900
    norm_num
  · show some ((50 : Rat) + 100) = some 150
    norm_num
  · intro h
    have h2 := congrArg (fun d : DB => d.transactions.length) h
    simp only [] at h2
    exact absurd h2 (by decide)

/-- Claim C7 counterexample: `"+1H"` does not match `^[0-9]+[HDMY]$`, yet
`parse_expiry` accepts it (Python `int()` tolerates the sign). -/
theorem C7_counterexample :
    matchesDurationGrammar "+1H" = false ∧ parse_expiry 0 "+1H" = .ok 3600 := by
  decide

/-- A decimal digit is not a whitespace character. -/
theorem isDigit_not_pySpace {c : Char} (h : c.isDigit = true) : isPySpace c = false := by
  by_contra hcon
  rw [Bool.not_eq_false] at hcon
  unfold isPySpace at hcon
  rw [List.contains_eq_any_beq] at hcon
  have hmem : c ∈ pySpaceChars := by
    rw [List.any_eq_true] at hcon
    obtain ⟨x, hx, hbeq⟩ := hcon
    rw [beq_iff_eq] at hbeq
    rwa [← hbeq] at hx
  fin_cases hmem <;> exact absurd h (by decide)

/-- A decimal digit is not a sign character. -/
theorem isDigit_ne_sign {c : Char} (h : c.isDigit = true) : c ≠ '+' ∧ c ≠ '-' := by
  constructor <;> rintro rfl <;> exact absurd h (by decide)

/-- Stripping whitespace leaves an all-digit list alone. -/
theorem dropWhile_pySpace_of_digits {l : List Char} (h : l.all Char.isDigit = true) :
    l.dropWhile isPySpace = l := by
  cases l with
  | nil => rfl
  | cons c cs =>
    rw [List.all_cons, Bool.and_eq_true] at h
    rw [List.dropWhile_cons, isDigit_not_pySpace h.1]
    simp

/-- An all-digit list is a valid Python digit-part tail. -/
theorem pyDigitsTail_of_digits (l : List Char) (h : l.all Char.isDigit = true) :
    pyDigitsTail l = true := by
  induction l with
  | nil => rfl
  | cons c cs ih =>
    rw [List.all_cons, Bool.and_eq_true] at h
    have hund : (c == '_') = false := by
      rw [beq_eq_false_iff_ne]
      rintro rfl
      exact absurd h.1 (by decide)
    unfold pyDigitsTail
    rw [hund]
    simp only [Bool.false_eq_true, if_false]
    rw [h.1, ih h.2]
    rfl

/-- A nonempty all-digit list is a valid Python digit-part. -/
theorem pyDigitsOk_of_digits (l : List Char) (hne : l ≠ [])
    (h : l.all Char.isDigit = true) : pyDigitsOk l = true := by
  cases l with
  | nil => exact absurd rfl hne
  | cons c cs =>
    rw [List.all_cons, Bool.and_eq_true] at h
    show (c.isDigit && pyDigitsTail cs) = true
    rw [h.1, pyDigitsTail_of_digits cs h.2]
    rfl

/-- Python `int` on a plain nonempty digit string returns its base-10 value. -/
theorem pyInt_digits (l : List Char) (hne : l ≠ []) (h : l.all Char.isDigit = true) :
    pyInt (String.mk l) = some ((digitsToNat l : Nat) : Int) := by
  unfold pyInt
  have hrev : l.reverse.all Char.isDigit = true := by
    rw [List.all_eq_true] at h ⊢
    intro x hx
    exact h x (List.mem_reverse.mp hx)
  have h1 : (String.mk l).data.dropWhile isPySpace = l := dropWhile_pySpace_of_digits h
  rw [h1, dropWhile_pySpace_of_digits hrev, List.reverse_reverse]
  cases l with
  | nil => exact absurd rfl hne
  | cons c cs =>
    rw [List.all_cons, Bool.and_eq_true] at h
    have hsign := isDigit_ne_sign h.1
    have hplus : (c == '+') = false := by rw [beq_eq_false_iff_ne]; exact hsign.1
    have hminus : (c == '-') = false := by rw [beq_eq_false_iff_ne]; exact hsign.2
    simp only [hplus, hminus, Bool.false_eq_true, if_false]
    rw [pyDigitsOk_of_digits (c :: cs) (by simp)
      (by rw [List.all_cons, Bool.and_eq_true]; exact h)]
    rfl

/-- Claim C7 (amended): every string matching `^[0-9]+[HDMY]$` (unit
case-insensitive) is accepted with the stated semantics — but the grammar
only under-approximates the accepted set (see the counterexample). -/
theorem C7_grammar_strings_accepted (now : Int) (ds : List Char) (u : Char)
    (hne : ds ≠ []) (hd : ds.all Char.isDigit = true)
    (hu : u.toUpper = 'H' ∨ u.toUpper = 'D' ∨ u.toUpper = 'M' ∨ u.toUpper = 'Y') :
    matchesDurationGrammar (String.mk (ds ++ [u])) = true ∧
    parse_expiry now (String.mk (ds ++ [u]))
      = .ok (now + (digitsToNat ds : Int) * specUnitSeconds u) := by
  have hdrop : (ds ++ [u]).dropLast = ds := by
    rw [List.dropLast_concat]
  have hlast : (ds ++ [u]).getLast? = some u := by
    rw [List.getLast?_concat]
  have hempty : ds.isEmpty = false := by
    cases ds with
    | nil => exact absurd rfl hne
    | cons a b => rfl
  constructor
  · unfold matchesDurationGrammar
    simp only [hdrop, hlast]
    rcases hu with h | h | h | h <;> simp [hempty, hd, h]
  · unfold parse_expiry
    have hlen : ¬((ds ++ [u] : List Char).length < 2) := by
      have := List.length_pos.mpr hne
      simp only [List.length_append]
      simp only [List.length_cons, List.length_nil]
      omega
    simp only [hlen, if_false]
    rw [hdrop, hlast, pyInt_digits ds hne hd]
    unfold specUnitSeconds
    rcases hu with h | h | h | h <;> simp [h, Option.map_some'] <;> ring_nf

/-- Witness for C7 amended at `"42h"`. -/
theorem C7_witness :
    (['4', '2'] : List Char) ≠ [] ∧
    (matchesDurationGrammar (String.mk (['4', '2'] ++ ['h'])) = true ∧
     parse_expiry 0 (String.mk (['4', '2'] ++ ['h']))
       = .ok (0 + (digitsToNat ['4', '2'] : Int) * specUnitSeconds 'h')) :=
  ⟨by decide, C7_grammar_strings_accepted 0 ['4', '2'] 'h' (by decide) (by decide)
    (Or.inl (by decide))⟩

/-- An active credential expiring exactly at t = 100, for C6. -/
def exKey6 : APIKey := ⟨1, "k6", "svc", 7, true, ["read"], 100, none⟩

/-- Database holding only `exKey6`. -/
def exDB6 : DB := ⟨[], [], [], [exKey6], 1, 1, 1⟩

/-- Claim C6 counterexample: at the instant `now = expiresAt` the claim says
the credential is already invalid (reason expired), but the code treats it
as still valid and authenticates the request. -/
theorem C6_counterexample :
    (100 : Int) ≥ exKey6.expires_at ∧
    exKey6.is_expired 100 = false ∧
    exKey6.is_valid 100 = true ∧
    (get_api_key_auth (Session.fromDB exDB6) 100 (some "k6")).2
      = .ok { exKey6 with last_used_at := some 100 } := by
  refine ⟨by decide, by decide, by decide, ?_⟩
  decide

/-- Claim C6 (amended): effective validity is `active ∧ now ≤ expiresAt`
(the key is still valid at the instant `now = expiresAt`); the lookup fails
401 "expired" exactly when `now > expiresAt`, fails 401 "inactive" when
inactive but not expired, and on success stamps `lastUsedAt = now`. -/
theorem C6_expiry_boundary_amended (s : Session) (now : Int) (k : String)
    (ak : APIKey) (hk : k ≠ "")
    (hlook : s.working.getApiKeyByKey k = some ak) :
    (ak.is_valid now = (ak.is_active && decide (now ≤ ak.expires_at))) ∧
    (now > ak.expires_at →
      get_api_key_auth s now (some k) = (s, .error ⟨401, "API key has expired"⟩)) ∧
    (ak.is_active = false → now ≤ ak.expires_at →
      get_api_key_auth s now (some k) = (s, .error ⟨401, "API key is inactive"⟩)) ∧
    (ak.is_active = true → now ≤ ak.expires_at →
      get_api_key_auth s now (some k)
        = (s.update_last_used ak.id now, .ok { ak with last_used_at := some now })) := by
  have htr : strTruthy (some k) = true := by
    simp [strTruthy, hk]
  refine ⟨?_, ?_, ?_, ?_⟩
  · unfold APIKey.is_valid APIKey.is_expired
    cases ha : ak.is_active <;> simp [Int.not_lt, ← decide_not]
  · intro hgt
    have hexp : ak.is_expired now = true := by
      unfold APIKey.is_expired
      exact decide_eq_true hgt
    unfold get_api_key_auth
    simp [htr, hlook, APIKey.is_valid, hexp]
  · intro hact hle
    have hexp : ak.is_expired now = false := by
      unfold APIKey.is_expired
      exact decide_eq_false (Int.not_lt.mpr hle)
    unfold get_api_key_auth
    simp [htr, hlook, APIKey.is_valid, hexp, hact]
  · intro hact hle
    have hexp : ak.is_expired now = false := by
      unfold APIKey.is_expired
      exact decide_eq_false (Int.not_lt.mpr hle)
    unfold get_api_key_auth
    simp [htr, hlook, APIKey.is_valid, hexp, hact]

/-- Witness for C6 amended: an expired key (now = 200 > 100) is rejected
with detail "API key has expired". -/
theorem C6_witness :
    ("k6" : String) ≠ "" ∧
    (Session.fromDB exDB6).working.getApiKeyByKey "k6" = some exKey6 ∧
    ((200 : Int) > exKey6.expires_at →
      get_api_key_auth (Session.fromDB exDB6) 200 (some "k6")
        = (Session.fromDB exDB6, .error ⟨401, "API key has expired"⟩)) :=
  ⟨by decide, by decide,
   (C6_expiry_boundary_amended (Session.fromDB exDB6) 200 "k6" exKey6
     (by decide) (by decide)).2.1⟩

/-- A `secrets.choice` stream that always draws the digit 0, for C9. -/
def zeroChoice : Nat → Fin 10 := fun _ => 0

/-- Database for C9: user 1 already owns the all-zero wallet number. -/
def exDB9 : DB :=
  ⟨[⟨1, "g1", "e1", none, none, true⟩], [⟨1, "0000000000000", 0, 1⟩], [], [], 2, 2, 1⟩

/-- Claim C9 counterexample: on a colliding random draw the wallet insert
fails (unique index) — the number is NOT re-generated and no second wallet
is created; the new user is even left without a wallet. -/
theorem C9_counterexample :
    generate_wallet_number zeroChoice = "0000000000000" ∧
    exDB9.wallets.any (fun w => w.wallet_number == generate_wallet_number zeroChoice) = true ∧
    (AuthService.get_or_create_user (Session.fromDB exDB9) zeroChoice "g2" "e2" none none).2
      = .error ⟨500, "IntegrityError: duplicate wallet_number"⟩ ∧
    (AuthService.get_or_create_user (Session.fromDB exDB9) zeroChoice
        "g2" "e2" none none).1.committed.wallets.length = 1 ∧
    (AuthService.get_or_create_user (Session.fromDB exDB9) zeroChoice
        "g2" "e2" none none).1.committed.users.length = 2 := by
  refine ⟨by decide, by decide, by decide, by decide, by decide⟩

/-- Claim C9 (amended): the generated number is always 13 decimal digits,
but creation performs no collision check or retry: a colliding draw makes
the creation fail outright, and only a non-colliding draw inserts a wallet
carrying exactly the single generated number. -/
theorem C9_wallet_number_amended (choice : Nat → Fin 10) (s : Session)
    (google_id email : String) (name picture : Option String)
    (hnew : s.working.getUserByGoogleId google_id = none) :
    ((generate_wallet_number choice).length = 13 ∧
     (generate_wallet_number choice).data.all Char.isDigit = true) ∧
    (s.working.wallets.any (fun w => w.wallet_number == generate_wallet_number choice) = true →
      (AuthService.get_or_create_user s choice google_id email name picture).2
        = .error ⟨500, "IntegrityError: duplicate wallet_number"⟩ ∧
      (AuthService.get_or_create_user s choice google_id email name picture).1.committed.wallets
        = s.working.wallets) ∧
    (s.working.wallets.any (fun w => w.wallet_number == generate_wallet_number choice) = false →
      (AuthService.get_or_create_user s choice google_id email name picture).1.committed.wallets
        = s.working.wallets ++
          [{ id := s.working.next_wallet_id, wallet_number := generate_wallet_number choice,
             balance := 0, user_id := s.working.next_user_id }]) := by
  refine ⟨⟨?_, ?_⟩, ?_, ?_⟩
  · unfold generate_wallet_number
    simp [String.length]
  · unfold generate_wallet_number
    rw [List.all_eq_true]
    intro x hx
    rw [List.mem_map] at hx
    obtain ⟨i, _, rfl⟩ := hx
    have hdig : ∀ j : Fin 10, (digitChars.getD (j : Nat) '0').isDigit = true := by decide
    exact hdig (choice i)
  · intro hdup
    unfold AuthService.get_or_create_user
    rw [hnew]
    simp only [Session.user_create, Session.wallet_create, Session.commit, Session.rollback]
    simp [hdup]
  · intro hfresh
    unfold AuthService.get_or_create_user
    rw [hnew]
    simp only [Session.user_create, Session.wallet_create, Session.commit, Session.rollback]
    simp [hfresh]

/-- Witness for C9 amended on an empty database: the fresh draw is stored
verbatim as the new wallet's number. -/
theorem C9_witness :
    (Session.fromDB ⟨[], [], [], [], 1, 1, 1⟩).working.getUserByGoogleId "g" = none ∧
    ((Session.fromDB ⟨[], [], [], [], 1, 1, 1⟩).working.wallets.any
        (fun w => w.wallet_number == generate_wallet_number zeroChoice) = false →
      (AuthService.get_or_create_user (Session.fromDB ⟨[], [], [], [], 1, 1, 1⟩) zeroChoice
          "g" "e" none none).1.committed.wallets
        = (Session.fromDB ⟨[], [], [], [], 1, 1, 1⟩).working.wallets ++
          [{ id := 1, wallet_number := generate_wallet_number zeroChoice,
             balance := 0, user_id := 1 }]) :=
  ⟨by decide,
   (C9_wallet_number_amended zeroChoice (Session.fromDB ⟨[], [], [], [], 1, 1, 1⟩)
     "g" "e" none none (by decide)).2.2⟩

/-- Updating a transaction row leaves wallet lookups unchanged. -/
theorem getWalletById_updTxn (db : DB) (tid : Nat) (f : Transaction → Transaction)
    (wid : Nat) : (db.updTxn tid f).getWalletById wid = db.getWalletById wid := rfl

/-- Looking up the updated wallet id finds the updated row. -/
theorem getWalletById_updWallet (db : DB) (f : Wallet → Wallet)
    (hf : ∀ x, (f x).id = x.id) {wid : Nat} {w : Wallet}
    (h : db.getWalletById wid = some w) :
    (db.updWallet wid f).getWalletById wid = some (f w) := by
  have h' : db.wallets.find? (fun x => x.id == wid) = some w := h
  have hwmatch : (w.id == wid) = true := by
    have h2 := List.find?_some h'
    simpa using h2
  show (db.wallets.map fun x => if x.id == wid then f x else x).find?
      (fun x => x.id == wid) = some (f w)
  have hpres : ∀ x : Wallet,
      ((fun y : Wallet => y.id == wid) (if x.id == wid then f x else x))
        = ((fun y : Wallet => y.id == wid) x) := by
    intro x
    cases hx : (x.id == wid) <;> simp [hx, hf]
  rw [find?_map_pres hpres h]
  simp [hwmatch]

/-- Looking up a different wallet id after an update finds the original row. -/
theorem getWalletById_updWallet_other (db : DB) (f : Wallet → Wallet)
    (hf : ∀ x, (f x).id = x.id) {wid wid' : Nat} {w : Wallet}
    (hne : wid' ≠ wid) (h : db.getWalletById wid' = some w) :
    (db.updWallet wid f).getWalletById wid' = some w := by
  have h' : db.wallets.find? (fun x => x.id == wid') = some w := h
  have hwmatch : (w.id == wid') = true := by
    have h2 := List.find?_some h'
    simpa using h2
  have hwid' : w.id = wid' := by rwa [beq_iff_eq] at hwmatch
  show (db.wallets.map fun x => if x.id == wid then f x else x).find?
      (fun x => x.id == wid') = some w
  have hpres : ∀ x : Wallet,
      ((fun y : Wallet => y.id == wid') (if x.id == wid then f x else x))
        = ((fun y : Wallet => y.id == wid') x) := by
    intro x
    cases hx : (x.id == wid) <;> simp [hx, hf]
  rw [find?_map_pres hpres h]
  have hfalse : (w.id == wid) = false := by
    rw [beq_eq_false_iff_ne, hwid']
    exact hne
  simp [hfalse]

/-- A transaction found by paystack reference, after a status-style update
of row `tid`, is found updated iff it is row `tid`. -/
theorem getTxnByPaystackRef_updTxn (db : DB) (f : Transaction → Transaction)
    (hf : ∀ x, (f x).paystack_reference = x.paystack_reference)
    {tid : Nat} {r : String} {t : Transaction}
    (h : db.getTxnByPaystackRef r = some t) :
    (db.updTxn tid f).getTxnByPaystackRef r
      = some (if t.id == tid then f t else t) := by
  show (db.transactions.map fun x => if x.id == tid then f x else x).find?
      (fun x => x.paystack_reference == some r) = _
  have hpres : ∀ x : Transaction,
      ((fun y : Transaction => y.paystack_reference == some r) (if x.id == tid then f x else x))
        = ((fun y : Transaction => y.paystack_reference == some r) x) := by
    intro x
    cases hx : (x.id == tid) <;> simp [hx, hf]
  rw [find?_map_pres hpres h]

/-- Updating a transaction row leaves wallet-by-user lookups unchanged. -/
theorem getWalletByUserId_updTxn (db : DB) (tid : Nat) (f : Transaction → Transaction)
    (uid : Nat) : (db.updTxn tid f).getWalletByUserId uid = db.getWalletByUserId uid := rfl

/-- Updating a wallet row leaves transaction lookups unchanged. -/
theorem getTxnByPaystackRef_updWallet (db : DB) (wid : Nat) (f : Wallet → Wallet)
    (r : String) : (db.updWallet wid f).getTxnByPaystackRef r = db.getTxnByPaystackRef r := rfl

/-- Updating a wallet row leaves the transaction table unchanged. -/
theorem updWallet_transactions (db : DB) (wid : Nat) (f : Wallet → Wallet) :
    (db.updWallet wid f).transactions = db.transactions := rfl

/-- Updating a wallet row leaves the transaction id counter unchanged. -/
theorem updWallet_next_txn_id (db : DB) (wid : Nat) (f : Wallet → Wallet) :
    (db.updWallet wid f).next_txn_id = db.next_txn_id := rfl

/-- The failed deposit transaction re-credited in the C2 counterexample. -/
def exTxn2 : Transaction := ⟨1, "DEP_X", .DEPOSIT, .FAILED, 50, 1, none, some "DEP_X"⟩

/-- Database for C2: wallet balance 100, transaction already Failed. -/
def exDB2 : DB := ⟨[], [⟨1, "1111111111111", 100, 7⟩], [exTxn2], [], 1, 2, 2⟩

/-- A success confirmation for the C2 counterexample (5000 kobo = 50). -/
def exWD2 : WebhookData := ⟨some "charge.success", some "DEP_X", some 5000, some "success"⟩

/-- Claim C2 counterexample: a confirmation that finds the transaction in
`Failed` status — not Pending — still transitions it to Success AND credits
the wallet (100 → 150), contradicting "no balance change occurs" for
non-Pending statuses. -/
theorem C2_counterexample :
    exDB2.getTxnByPaystackRef "DEP_X" = some exTxn2 ∧
    exTxn2.status = TransactionStatus.FAILED ∧
    (WebhookService.process_payment_webhook (Session.fromDB exDB2) exWD2).2 = .ok () ∧
    ((WebhookService.process_payment_webhook (Session.fromDB exDB2)
        exWD2).1.committed.getWalletById 1).map Wallet.balance = some 150 ∧
    ((WebhookService.process_payment_webhook (Session.fromDB exDB2)
        exWD2).1.committed.getTxnByPaystackRef "DEP_X").map Transaction.status
      = some TransactionStatus.SUCCESS := by
  refine ⟨by decide, by decide, rfl, ?_, by decide⟩
  show some ((100 : Rat) + ((5000 : Int) : Rat) / 100) = some 150
  norm_num

/-- Claim C2 (amended): the webhook credit path short-circuits only on a
`Success` status; under outcome=success any non-Success status — Pending or
Failed — is transitioned to Success and the wallet is credited by the
processor-confirmed amount. -/
theorem C2_credit_transition_amended (s : Session) (wd : WebhookData)
    (ref : String) (k : Int) (t : Transaction) (tw w : Wallet)
    (he : wd.event = some "charge.success")
    (hr : wd.reference = some ref) (hk : wd.amount = some k)
    (hst : wd.paystack_status = some "success")
    (hrne : ref ≠ "") (hkne : k ≠ 0)
    (hfind : s.working.getTxnByPaystackRef ref = some t)
    (htw : s.working.getWalletById t.wallet_id = some tw)
    (hw : s.working.getWalletByUserId tw.user_id = some w)
    (hwid : s.working.getWalletById w.id = some w) :
    (t.status = TransactionStatus.SUCCESS →
      WebhookService.process_payment_webhook s wd = (s, .ok ())) ∧
    (t.status ≠ TransactionStatus.SUCCESS →
      (WebhookService.process_payment_webhook s wd).2 = .ok () ∧
      ((WebhookService.process_payment_webhook s wd).1.committed.getWalletById w.id).map
          Wallet.balance = some (w.balance + (k : Rat) / 100) ∧
      (WebhookService.process_payment_webhook s wd).1.committed.getTxnByPaystackRef ref
        = some { t with status := TransactionStatus.SUCCESS }) := by
  have hcond : (ref == "" || k == 0) = false := by
    simp [hrne, hkne]
  have hwid2 : (s.working.updTxn t.id fun t' =>
      { t' with status := TransactionStatus.SUCCESS }).getWalletById w.id = some w := by
    rw [getWalletById_updTxn]
    exact hwid
  constructor
  · intro hts
    unfold WebhookService.process_payment_webhook
    simp only [he, beq_self_eq_true, if_true, hr, hk, hcond, Bool.false_eq_true, if_false,
      hfind, hts]
  · intro hts
    have htsb : (t.status == TransactionStatus.SUCCESS) = false :=
      beq_eq_false_iff_ne.mpr hts
    unfold WebhookService.process_payment_webhook
    simp only [he, beq_self_eq_true, if_true, hr, hk, hcond, Bool.false_eq_true, if_false,
      hfind, htsb, hst, Session.update_status, Session.commit, Session.add_to_balance,
      getWalletById_updTxn, getWalletByUserId_updTxn, htw, hw]
    refine ⟨trivial, ?_, ?_⟩
    · rw [getWalletById_updWallet (f := fun w' => { w' with balance := w'.balance + (k : Rat) / 100 })
        _ (fun x => rfl) hwid2]
      rfl
    · rw [getTxnByPaystackRef_updWallet,
        getTxnByPaystackRef_updTxn (f := fun t' => { t' with status := TransactionStatus.SUCCESS })
          _ (fun x => rfl) hfind]
      simp

/-- Witness for C2 amended at the Failed-transaction state. -/
theorem C2_witness :
    exTxn2.status ≠ TransactionStatus.SUCCESS ∧
    ((WebhookService.process_payment_webhook (Session.fromDB exDB2) exWD2).2 = .ok () ∧
     ((WebhookService.process_payment_webhook (Session.fromDB exDB2)
         exWD2).1.committed.getWalletById 1).map Wallet.balance
       = some ((100 : Rat) + ((5000 : Int) : Rat) / 100) ∧
     (WebhookService.process_payment_webhook (Session.fromDB exDB2)
         exWD2).1.committed.getTxnByPaystackRef "DEP_X"
       = some { exTxn2 with status := TransactionStatus.SUCCESS }) :=
  ⟨by decide,
   (C2_credit_transition_amended (Session.fromDB exDB2) exWD2 "DEP_X" 5000 exTxn2
      ⟨1, "1111111111111", 100, 7⟩ ⟨1, "1111111111111", 100, 7⟩
      rfl rfl rfl rfl (by decide) (by decide) (by decide) (by decide) (by decide)
      (by decide)).2 (by decide)⟩

/-- Claim C3: a successful transfer debits the sender by A, credits the
distinct recipient by A, and appends exactly two linked Success Transfer
rows — the sender leg carrying the recipient's number and the recipient leg
(reference suffixed `_IN`) carrying the sender's number. -/
theorem C3_zero_sum_transfer (s : Session) (sender recipient : Wallet)
    (rnum : String) (amount : Rat) (tok : String)
    (hpos : 0 < amount) (hbal : amount ≤ sender.balance)
    (hrec : s.working.getWalletByNumber rnum = some recipient)
    (hne : sender.id ≠ recipient.id)
    (hsid : s.working.getWalletById sender.id = some sender)
    (hrid : s.working.getWalletById recipient.id = some recipient) :
    recipient.wallet_number = rnum ∧
    (WalletService.transfer_funds s sender rnum amount tok none).2
      = .ok { id := s.working.next_txn_id, reference := "TRF_" ++ tok,
              type := TransactionType.TRANSFER, status := TransactionStatus.SUCCESS,
              amount := amount, wallet_id := sender.id,
              recipient_wallet_number := some rnum, paystack_reference := none } ∧
    ((WalletService.transfer_funds s sender rnum amount tok none).1.committed.getWalletById
        sender.id).map Wallet.balance = some (sender.balance - amount) ∧
    ((WalletService.transfer_funds s sender rnum amount tok none).1.committed.getWalletById
        recipient.id).map Wallet.balance = some (recipient.balance + amount) ∧
    (WalletService.transfer_funds s sender rnum amount tok none).1.committed.transactions
      = s.working.transactions ++
        [{ id := s.working.next_txn_id, reference := "TRF_" ++ tok,
           type := TransactionType.TRANSFER, status := TransactionStatus.SUCCESS,
           amount := amount, wallet_id := sender.id,
           recipient_wallet_number := some rnum, paystack_reference := none },
         { id := s.working.next_txn_id + 1, reference := "TRF_" ++ tok ++ "_IN",
           type := TransactionType.TRANSFER, status := TransactionStatus.SUCCESS,
           amount := amount, wallet_id := recipient.id,
           recipient_wallet_number := some sender.wallet_number,
           paystack_reference := none }] := by
  have hnum : recipient.wallet_number = rnum := by
    have h' : s.working.wallets.find? (fun x => x.wallet_number == rnum) = some recipient := hrec
    have h2 := List.find?_some h'
    simpa using h2
  have h0 : ¬(amount ≤ 0) := not_le.mpr hpos
  have h1 : ¬(sender.balance < amount) := not_lt.mpr hbal
  have h2 : (sender.id == recipient.id) = false := beq_eq_false_iff_ne.mpr hne
  have hfa : ∀ i : Nat, ((none : Option Nat) == some i) = false := fun i => rfl
  have hsend1 : (s.working.updWallet sender.id
        (fun w' => { w' with balance := w'.balance - amount })).getWalletById sender.id
      = some { sender with balance := sender.balance - amount } :=
    getWalletById_updWallet s.working
      (fun w' => { w' with balance := w'.balance - amount }) (fun x => rfl) hsid
  have hrec1 : (s.working.updWallet sender.id
        (fun w' => { w' with balance := w'.balance - amount })).getWalletById recipient.id
      = some recipient :=
    getWalletById_updWallet_other s.working
      (fun w' => { w' with balance := w'.balance - amount }) (fun x => rfl)
      (fun hEq => hne hEq.symm) hrid
  refine ⟨hnum, ?_⟩
  unfold WalletService.transfer_funds
  simp only [if_neg h0, if_neg h1, hrec, h2, Bool.false_eq_true, if_false, hfa,
    Session.deduct_from_balance, Session.add_to_balance, Session.txn_create, Session.commit]
  refine ⟨rfl, ?_, ?_, ?_⟩
  · show Option.map Wallet.balance
        (((s.working.updWallet sender.id fun w' =>
            { w' with balance := w'.balance - amount }).updWallet recipient.id fun w' =>
            { w' with balance := w'.balance + amount }).getWalletById sender.id)
        = some (sender.balance - amount)
    rw [getWalletById_updWallet_other _
      (fun w' => { w' with balance := w'.balance + amount }) (fun x => rfl) hne hsend1]
    rfl
  · show Option.map Wallet.balance
        (((s.working.updWallet sender.id fun w' =>
            { w' with balance := w'.balance - amount }).updWallet recipient.id fun w' =>
            { w' with balance := w'.balance + amount }).getWalletById recipient.id)
        = some (recipient.balance + amount)
    rw [getWalletById_updWallet _
      (fun w' => { w' with balance := w'.balance + amount }) (fun x => rfl) hrec1]
    rfl
  · simp [updWallet_transactions, updWallet_next_txn_id, List.append_assoc]

/-- Wallets for the C3 witness: sender balance 1000, recipient balance 50. -/
def exDB3 : DB :=
  ⟨[], [⟨1, "5555555555555", 1000, 7⟩, ⟨2, "6666666666666", 50, 8⟩], [], [], 1, 3, 1⟩

/-- Witness for C3: transferring 100 leaves 900 / 150. -/
theorem C3_witness :
    (0 : Rat) < 100 ∧
    ((WalletService.transfer_funds (Session.fromDB exDB3) ⟨1, "5555555555555", 1000, 7⟩
        "6666666666666" 100 "W" none).1.committed.getWalletById 1).map Wallet.balance
      = some ((1000 : Rat) - 100) ∧
    ((WalletService.transfer_funds (Session.fromDB exDB3) ⟨1, "5555555555555", 1000, 7⟩
        "6666666666666" 100 "W" none).1.committed.getWalletById 2).map Wallet.balance
      = some ((50 : Rat) + 100) :=
  have hth := C3_zero_sum_transfer (Session.fromDB exDB3) ⟨1, "5555555555555", 1000, 7⟩
    ⟨2, "6666666666666", 50, 8⟩ "6666666666666" 100 "W" (by norm_num) (by norm_num)
    (by decide) (by decide) (by decide) (by decide)
  ⟨by norm_num, hth.2.2.1, hth.2.2.2.1⟩

/-- get_api_key_auth either leaves the session untouched or succeeds with
the last-used stamp; used to reason about the fallback path. -/
theorem get_api_key_auth_cases (s : Session) (now : Int) (x : Option String) :
    (get_api_key_auth s now x).1 = s ∨
    ∃ k ak, x = some k ∧ s.working.getApiKeyByKey k = some ak ∧
      ak.is_valid now = true ∧
      get_api_key_auth s now x
        = (s.update_last_used ak.id now, .ok { ak with last_used_at := some now }) := by
  cases x with
  | none =>
    left
    rfl
  | some k =>
    cases hk : (k == "") with
    | true =>
      left
      simp [get_api_key_auth, strTruthy, hk]
    | false =>
      have htr : strTruthy (some k) = true := by simp [strTruthy, hk]
      unfold get_api_key_auth
      simp only [htr, Bool.not_true, Bool.false_eq_true, if_false]
      cases hlook : s.working.getApiKeyByKey k with
      | none =>
        left
        simp [hlook]
      | some ak =>
        cases hval : ak.is_valid now with
        | false =>
          left
          simp [hlook, hval]
        | true =>
          right
          refine ⟨k, ak, rfl, hlook, hval, ?_⟩
          simp [htr, hlook, hval]

/-- A failed API-key attempt leaves the session unchanged. -/
theorem get_api_key_auth_error_keeps_session (s : Session) (now : Int)
    (x : Option String) (e : HErr)
    (h : (get_api_key_auth s now x).2 = .error e) :
    (get_api_key_auth s now x).1 = s := by
  rcases get_api_key_auth_cases s now x with h1 | ⟨k, ak, hx, hlook, hval, heq⟩
  · exact h1
  · rw [heq] at h
    simp at h

/-- A present, valid API key authenticates and stamps last use. -/
theorem get_api_key_auth_valid (s : Session) (now : Int) (k : String) (ak : APIKey)
    (hk : k ≠ "") (hlook : s.working.getApiKeyByKey k = some ak)
    (hval : ak.is_valid now = true) :
    get_api_key_auth s now (some k)
      = (s.update_last_used ak.id now, .ok { ak with last_used_at := some now }) := by
  have htr : strTruthy (some k) = true := by simp [strTruthy, hk]
  unfold get_api_key_auth
  simp [htr, hlook, hval]

/-- When the API key path fails, the resolver runs the JWT fallback on the
original session. -/
theorem or_api_key_fallback (decode : String → Option JwtPayload) (s : Session)
    (now : Int) (x : Option String) (credentials : Option String) (e : HErr)
    (hfail : (get_api_key_auth s now x).2 = .error e) :
    get_current_user_or_api_key decode s now x credentials
      = jwt_fallback decode s credentials := by
  cases htr : strTruthy x with
  | false =>
    unfold get_current_user_or_api_key
    simp [htr]
  | true =>
    have hses := get_api_key_auth_error_keeps_session s now x e hfail
    unfold get_current_user_or_api_key
    simp only [htr, if_true]
    rcases hq : get_api_key_auth s now x with ⟨s1, r⟩
    rw [hq] at hfail hses
    simp only [] at hfail hses
    rcases r with e2 | ak2
    · rw [hses]
    · exact absurd hfail (by simp)

/-- A failed JWT attempt makes the fallback return the final 401. -/
theorem jwt_fallback_error (decode : String → Option JwtPayload) (s : Session)
    (credentials : Option String) (e' : HErr)
    (h : (get_current_user_from_jwt decode s credentials).2 = .error e') :
    (jwt_fallback decode s credentials).2
      = .error ⟨401, "Valid authentication required (JWT token or API key)"⟩ := by
  unfold jwt_fallback
  cases credentials with
  | none => rfl
  | some tok =>
    rcases hq : get_current_user_from_jwt decode s (some tok) with ⟨s2, r⟩
    rw [hq] at h
    rcases r with e2 | u
    · rfl
    · exact absurd h (by simp)

/-- Claim C5: a present valid scoped secret authenticates as the scoped
principal without consulting the bearer token; when it is absent or
invalid, resolution falls back to the bearer token; when both fail the
request is rejected 401. -/
theorem C5_credential_precedence (decode : String → Option JwtPayload)
    (s : Session) (now : Int) (x_api_key : Option String)
    (credentials : Option String) :
    (∀ k ak, x_api_key = some k → k ≠ "" →
      s.working.getApiKeyByKey k = some ak → ak.is_valid now = true →
      get_current_user_or_api_key decode s now x_api_key credentials
        = (s.update_last_used ak.id now,
           .ok (none, some { ak with last_used_at := some now }))) ∧
    (∀ e, (get_api_key_auth s now x_api_key).2 = .error e →
      get_current_user_or_api_key decode s now x_api_key credentials
        = jwt_fallback decode s credentials) ∧
    (∀ e e', (get_api_key_auth s now x_api_key).2 = .error e →
      (get_current_user_from_jwt decode s credentials).2 = .error e' →
      (get_current_user_or_api_key decode s now x_api_key credentials).2
        = .error ⟨401, "Valid authentication required (JWT token or API key)"⟩) := by
  refine ⟨?_, ?_, ?_⟩
  · rintro k ak rfl hk hlook hval
    have hau := get_api_key_auth_valid s now k ak hk hlook hval
    have htr : strTruthy (some k) = true := by simp [strTruthy, hk]
    unfold get_current_user_or_api_key
    simp only [htr, if_true]
    rw [hau]
  · intro e hfail
    exact or_api_key_fallback decode s now x_api_key credentials e hfail
  · intro e e' hfail hjwt
    rw [or_api_key_fallback decode s now x_api_key credentials e hfail]
    exact jwt_fallback_error decode s credentials e' hjwt

/-- A valid credential for the C5 witness. -/
def exKey5 : APIKey := ⟨1, "kk", "svc", 7, true, ["read"], 1000, none⟩

/-- Database holding only `exKey5`. -/
def exDB5 : DB := ⟨[], [], [], [exKey5], 1, 1, 1⟩

/-- Witness for C5: with both a valid API key and a bearer token present,
the scoped principal wins and the token is never decoded. -/
theorem C5_witness :
    (Session.fromDB exDB5).working.getApiKeyByKey "kk" = some exKey5 ∧
    get_current_user_or_api_key (fun _ => none) (Session.fromDB exDB5) 10
        (some "kk") (some "tok")
      = ((Session.fromDB exDB5).update_last_used 1 10,
         .ok (none, some { exKey5 with last_used_at := some 10 })) :=
  ⟨by decide,
   (C5_credential_precedence (fun _ => none) (Session.fromDB exDB5) 10
      (some "kk") (some "tok")).1 "kk" exKey5 rfl (by decide) (by decide) (by decide)⟩

/-- After a success-outcome confirmation is processed without error, the
resulting state is a fixed point of re-delivering the same payload. -/
theorem process_stable (s s' : Session) (wd : WebhookData)
    (hst : wd.paystack_status = some "success")
    (h1 : WebhookService.process_payment_webhook s wd = (s', .ok ())) :
    WebhookService.process_payment_webhook s' wd = (s', .ok ()) := by
  unfold WebhookService.process_payment_webhook at h1 ⊢
  cases hev : (wd.event == some "charge.success") with
  | false =>
    simp only [Bool.false_eq_true, if_false]
  | true =>
    rw [hev] at h1
    simp only [if_true] at h1 ⊢
    cases href : wd.reference with
    | none =>
      rw [href] at h1
      simp at h1
    | some ref =>
      rw [href] at h1
      cases hram : wd.amount with
      | none =>
        rw [hram] at h1
        simp at h1
      | some kobo =>
        rw [hram] at h1
        dsimp only [] at h1 ⊢
        cases htr : (ref == "" || kobo == 0) with
        | true =>
          rw [htr] at h1
          simp at h1
        | false =>
          rw [htr] at h1
          simp only [Bool.false_eq_true, if_false] at h1 ⊢
          cases hfind : s.working.getTxnByPaystackRef ref with
          | none =>
            rw [hfind] at h1
            injection h1 with h1a h1b
            subst h1a
            simp [hfind]
          | some t =>
            rw [hfind] at h1
            dsimp only [] at h1
            cases hts : (t.status == TransactionStatus.SUCCESS) with
            | true =>
              rw [hts] at h1
              simp only [if_true] at h1
              injection h1 with h1a h1b
              subst h1a
              simp [hfind, hts]
            | false =>
              rw [hts] at h1
              simp only [Bool.false_eq_true, if_false] at h1
              rw [hst] at h1
              simp only [beq_self_eq_true, if_true] at h1
              simp only [Session.update_status, Session.commit, Session.add_to_balance,
                getWalletById_updTxn, getWalletByUserId_updTxn] at h1
              have hfind2 : (s.working.updTxn t.id fun t' =>
                  { t' with status := TransactionStatus.SUCCESS }).getTxnByPaystackRef ref
                  = some { t with status := TransactionStatus.SUCCESS } := by
                rw [getTxnByPaystackRef_updTxn _
                  (fun t' => { t' with status := TransactionStatus.SUCCESS })
                  (fun x => rfl) hfind]
                simp
              cases htw : s.working.getWalletById t.wallet_id with
              | none =>
                rw [htw] at h1
                simp at h1
              | some tw =>
                rw [htw] at h1
                dsimp only [] at h1
                cases hwu : s.working.getWalletByUserId tw.user_id with
                | none =>
                  rw [hwu] at h1
                  dsimp only [] at h1
                  injection h1 with h1a h1b
                  subst h1a
                  simp [hfind2]
                | some w =>
                  rw [hwu] at h1
                  dsimp only [] at h1
                  injection h1 with h1a h1b
                  subst h1a
                  simp [getTxnByPaystackRef_updWallet, hfind2]

/-- A fixed point of processing absorbs any number of re-deliveries. -/
theorem processN_fixed (s : Session) (wd : WebhookData)
    (h : WebhookService.process_payment_webhook s wd = (s, .ok ())) :
    ∀ m, processN m s wd = (s, .ok ()) := by
  intro m
  induction m with
  | zero => rfl
  | succ m ih =>
    unfold processN
    rw [h]
    exact ih

/-- Claim C1: once the first delivery of a success confirmation is
processed, every further delivery of the same payload is a no-op — the
state (hence every balance) after N ≥ 1 deliveries equals the state after
one — and a confirmation finding the transaction already in Success status
changes nothing at all. -/
theorem C1_idempotent_credit (s s' : Session) (wd : WebhookData) (n : Nat)
    (hst : wd.paystack_status = some "success")
    (h1 : WebhookService.process_payment_webhook s wd = (s', .ok ())) :
    processN (n + 1) s wd = processN 1 s wd ∧
    (∀ ref t, wd.reference = some ref →
      s.working.getTxnByPaystackRef ref = some t →
      t.status = TransactionStatus.SUCCESS → s' = s) := by
  have hstab := process_stable s s' wd hst h1
  have hfix := processN_fixed s' wd hstab
  constructor
  · show processN (n + 1) s wd = processN 1 s wd
    unfold processN
    rw [h1]
    dsimp only []
    rw [hfix n, hfix 0]
  · intro ref t href hfind hsucc
    unfold WebhookService.process_payment_webhook at h1
    cases hev : (wd.event == some "charge.success") with
    | false =>
      rw [hev] at h1
      simp only [Bool.false_eq_true, if_false] at h1
      injection h1 with h1a h1b
      exact h1a.symm
    | true =>
      rw [hev, href] at h1
      simp only [if_true] at h1
      cases hram : wd.amount with
      | none =>
        rw [hram] at h1
        simp at h1
      | some kobo =>
        rw [hram] at h1
        dsimp only [] at h1
        cases htr : (ref == "" || kobo == 0) with
        | true =>
          rw [htr] at h1
          simp at h1
        | false =>
          rw [htr] at h1
          simp only [Bool.false_eq_true, if_false] at h1
          rw [hfind] at h1
          dsimp only [] at h1
          have hts : (t.status == TransactionStatus.SUCCESS) = true := by
            rw [hsucc]
            rfl
          rw [hts] at h1
          simp only [if_true] at h1
          injection h1 with h1a h1b
          exact h1a.symm

/-- Pending deposit transaction for the C1 witness. -/
def exTxn1 : Transaction := ⟨1, "DEP_Y", .DEPOSIT, .PENDING, 50, 1, none, some "DEP_Y"⟩

/-- Database for C1: wallet balance 100, deposit pending. -/
def exDB1 : DB := ⟨[], [⟨1, "3333333333333", 100, 7⟩], [exTxn1], [], 1, 2, 2⟩

/-- The success confirmation delivered repeatedly in the C1 witness. -/
def exWD1 : WebhookData := ⟨some "charge.success", some "DEP_Y", some 5000, some "success"⟩

/-- Witness for C1: three deliveries of the same confirmation give the same
state as one delivery. -/
theorem C1_witness :
    WebhookService.process_payment_webhook (Session.fromDB exDB1) exWD1
      = ((WebhookService.process_payment_webhook (Session.fromDB exDB1) exWD1).1, .ok ()) ∧
    processN 3 (Session.fromDB exDB1) exWD1 = processN 1 (Session.fromDB exDB1) exWD1 :=
  have h1 : WebhookService.process_payment_webhook (Session.fromDB exDB1) exWD1
      = ((WebhookService.process_payment_webhook (Session.fromDB exDB1) exWD1).1, .ok ()) := rfl
  ⟨h1, (C1_idempotent_credit (Session.fromDB exDB1)
    (WebhookService.process_payment_webhook (Session.fromDB exDB1) exWD1).1 exWD1 2
    rfl h1).1⟩

end App
